import Mathlib

/-!
Shallow embedding of the OpenLovart dashboard slice
(`src/app/lovart/page.tsx`, `src/lib/supabase.ts`): the credit bootstrap
flow, the project listing flow and the project creation flow, together
with theorems settling the specification's claims about them.

JavaScript semantics are modelled explicitly: `jsTrim` models
`String.prototype.trim`, `jsSlice` models `s.slice(0, n)`, `jsOrStr` /
`jsOrNum` model the `||` falsy-default idiom on strings and numbers, and
`encodeURIComponent` models the browser global of the same name
(percent-encoding of UTF-8 bytes outside the unreserved set).
Store requests (Supabase) are modelled by their result records
`{ data, error }`; the flows are parameterised by those results.
-/

namespace OpenLovart

/-- Model of the JS falsy-default idiom `s || d` on strings
(the empty string is the only falsy string). -/
def jsOrStr (s d : String) : String := if s = "" then d else s

/-- Model of the JS falsy-default idiom `x?.f || d` on an optional numeric
field access: absent (`undefined`) and `0` are falsy. -/
def jsOrNum (x : Option Int) (d : Int) : Int :=
  match x with
  | none => d
  | some v => if v = 0 then d else v

/-- Model of JS `String.prototype.trim`: strip whitespace from both ends. -/
def jsTrim (s : String) : String :=
  String.mk (((s.data.dropWhile Char.isWhitespace).reverse.dropWhile
      Char.isWhitespace).reverse)

/-- Model of JS `s.slice(0, n)`: the first `n` characters. -/
def jsSlice (s : String) (n : Nat) : String := String.mk (s.data.take n)

/-- Characters `encodeURIComponent` leaves unescaped:
alphanumerics and `- _ . ! ~ * ' ( )`. -/
def uriUnescaped (c : Char) : Bool :=
  c.isAlphanum || c = '-' || c = '_' || c = '.' || c = '!' || c = '~' ||
    c = '*' || c.toNat == 39 || c = '(' || c = ')'

/-- Upper-case hexadecimal digit for `n < 16`. -/
def hexDigit (n : Nat) : Char :=
  if n < 10 then Char.ofNat (48 + n) else Char.ofNat (55 + n)

/-- UTF-8 byte sequence of a Unicode scalar value. -/
def utf8Bytes (n : Nat) : List Nat :=
  if n < 0x80 then [n]
  else if n < 0x800 then
    [0xC0 + n / 64, 0x80 + n % 64]
  else if n < 0x10000 then
    [0xE0 + n / 4096, 0x80 + (n / 64) % 64, 0x80 + n % 64]
  else
    [0xF0 + n / 262144, 0x80 + (n / 4096) % 64, 0x80 + (n / 64) % 64,
      0x80 + n % 64]

/-- Percent-encoding of one character: each UTF-8 byte as `%XX`. -/
def pctEncodeChar (c : Char) : String :=
  String.join ((utf8Bytes c.toNat).map
    (fun b => String.mk ['%', hexDigit (b / 16), hexDigit (b % 16)]))

/-- Model of the JS global `encodeURIComponent`. -/
def encodeURIComponent (s : String) : String :=
  String.join (s.data.map
    (fun c => if uriUnescaped c then String.mk [c] else pctEncodeChar c))

/-- A store (Supabase/PostgREST) error: optional error `code` and a
`message`, as inspected by the page (`error.code`, `error.message`). -/
structure StoreError where
  code : Option String
  message : String
deriving DecidableEq, Repr

/-- A store request's settled result, the `{ data, error }` record
returned by the Supabase client. -/
structure QueryResult (α : Type) where
  data : Option α
  error : Option StoreError
deriving DecidableEq, Repr

/-- The client-side `Project` interface of `page.tsx`. -/
structure Project where
  id : String
  title : String
  thumbnail : Option String
  updated_at : String
deriving DecidableEq, Repr

/-- The row shape read from / inserted into `user_credits`
(the `credits` field is the only one the page consumes). -/
structure CreditRow where
  credits : Int
deriving DecidableEq, Repr

/-- The ordered read `loadData` issues for projects:
`.from('projects').select('*').order('updated_at', { ascending: false })`. -/
structure OrderedSelect where
  table : String
  orderColumn : String
  ascending : Bool
deriving DecidableEq, Repr

/-- The concrete projects request built at `page.tsx:106-109`. -/
def projectsListRequest : OrderedSelect :=
  { table := "projects", orderColumn := "updated_at", ascending := false }

/-- Lexicographic `≤` on character lists by code point (kernel-computable
string comparison, used for `updated_at` timestamps). -/
def charsLe : List Char → List Char → Bool
  | [], _ => true
  | _ :: _, [] => false
  | a :: as, b :: bs =>
    if a.toNat < b.toNat then true
    else if b.toNat < a.toNat then false
    else charsLe as bs

/-- String `≤` by code points, applied to `updated_at` values. -/
def tsLe (a b : String) : Bool := charsLe a.data b.data

/-- `updated_at`-descending sortedness of a project list
(each entry's timestamp is ≥ its successor's). -/
def sortedDescB : List Project → Bool
  | [] => true
  | [_] => true
  | a :: b :: rest => (tsLe b.updated_at a.updated_at && sortedDescB (b :: rest))

/-- The store results the `loadData` effect consumes: the projects read,
the single-row credits read, and (when issued) the credits insert. -/
structure LoadEnv where
  projectsRes : QueryResult (List Project)
  creditsRes : QueryResult CreditRow
  insertRes : QueryResult CreditRow
deriving DecidableEq, Repr

/-- `loadData`'s observable outcome: the component state after the run
(from the initial mount state `projects = []`, `credits = null`,
`isLoading = true`) plus the list of credit-insert payloads issued. -/
structure LoadOutcome where
  projects : List Project
  credits : Option Int
  isLoading : Bool
  creditInserts : List (String × Int)
deriving DecidableEq, Repr

/-- The credit-processing section of `loadData` (`page.tsx:121-132`), the
Credit Bootstrap Flow proper: returns the adopted balance (`none` when
`setCredits` is never called) and the credit-insert payloads issued.

```
if (creditsResult.error && creditsResult.error.code === 'PGRST116') {
  const { data: newData } = await supabase.from('user_credits')
    .insert({ user_id: user.id, credits: 1000 }).select().single();
  setCredits(newData?.credits || 1000);
} else if (!creditsResult.error) {
  setCredits(creditsResult.data?.credits || 0);
}
```
-/
def processCredits (userId : String) (creditsRes insertRes : QueryResult CreditRow) :
    Option Int × List (String × Int) :=
  match creditsRes.error with
  | some e =>
    if e.code = some "PGRST116" then
      (some (jsOrNum (insertRes.data.map CreditRow.credits) 1000), [(userId, 1000)])
    else
      (none, [])
  | none =>
    (some (jsOrNum (creditsRes.data.map CreditRow.credits) 0), [])

/-- The `loadData` effect of `page.tsx:96-141`. The projects read and the
credits read are issued together (`Promise.all`); their settled results
arrive in `env`. A projects-read error is thrown (`page.tsx:118`), which
jumps to the `catch` block and skips both `setProjects` and the whole
credit-processing section; the `finally` block always clears `isLoading`. -/
def loadData (user : Option String) (hasSupabase : Bool) (env : LoadEnv) :
    LoadOutcome :=
  match user, hasSupabase with
  | none, _ =>
    { projects := [], credits := none, isLoading := false, creditInserts := [] }
  | some _, false =>
    { projects := [], credits := none, isLoading := false, creditInserts := [] }
  | some uid, true =>
    match env.projectsRes.error with
    | some _ =>
      { projects := [], credits := none, isLoading := false, creditInserts := [] }
    | none =>
      let projs := env.projectsRes.data.getD []
      let cr := processCredits uid env.creditsRes env.insertRes
      { projects := projs, credits := cr.1, isLoading := false,
        creditInserts := cr.2 }

/-- The dashboard preview rendering `projects.slice(0, 3)` (`page.tsx:439`). -/
def renderedPreview (projects : List Project) : List Project := projects.take 3

/-- Title derivation of `page.tsx:193`:
`inputValue.trim().slice(0, 50) || '未命名项目'`. -/
def deriveTitle (inputValue : String) : String :=
  jsOrStr (jsSlice (jsTrim inputValue) 50) "未命名项目"

/-- The editor URL built at `page.tsx:215`:
`/lovart/canvas?id=${newProjectId}&prompt=${encodeURIComponent(inputValue.trim())}`. -/
def canvasUrl (newProjectId promptText : String) : String :=
  "/lovart/canvas?id=" ++ newProjectId ++ "&prompt=" ++
    encodeURIComponent promptText

/-- Observable events of one `handleGenerate` run, in program order. -/
inductive GenEvent where
  | insertResolved (id title : String) (err : Option StoreError)
  | navigate (url : String)
  | alertShown (msg : String)
deriving DecidableEq, Repr

/-- `handleGenerate`'s observable outcome: the final in-flight flag, the
alerts shown, the project-insert payloads issued, the navigation target
(`none` when `window.location.href` is never assigned), and the ordered
event trace. -/
structure GenOutcome where
  isGenerating : Bool
  alerts : List String
  inserts : List (String × String)
  navigation : Option String
  trace : List GenEvent
deriving DecidableEq, Repr

/-- The `handleGenerate` effect of `page.tsx:175-221`, parameterised by
the state read at entry (`inputValue`, `isGenerating`, `user`,
`supabase`), the freshly generated `newProjectId` (uuidv4), and the
settled result of the project insert. -/
def handleGenerate (inputValue : String) (isGenerating : Bool)
    (user : Option String) (hasSupabase : Bool) (newProjectId : String)
    (insertRes : QueryResult Project) : GenOutcome :=
  if jsTrim inputValue = "" ∨ isGenerating = true then
    { isGenerating := isGenerating, alerts := [], inserts := [],
      navigation := none, trace := [] }
  else if user.isNone then
    { isGenerating := isGenerating, alerts := ["请先登录"], inserts := [],
      navigation := none, trace := [.alertShown "请先登录"] }
  else if hasSupabase = false then
    { isGenerating := isGenerating, alerts := ["系统初始化中，请稍后再试"],
      inserts := [], navigation := none,
      trace := [.alertShown "系统初始化中，请稍后再试"] }
  else
    let projectTitle := deriveTitle inputValue
    match insertRes.error with
    | some projectError =>
      { isGenerating := false,
        alerts := ["创建项目失败: " ++ projectError.message],
        inserts := [(newProjectId, projectTitle)],
        navigation := none,
        trace := [.insertResolved newProjectId projectTitle (some projectError),
          .alertShown ("创建项目失败: " ++ projectError.message)] }
    | none =>
      let url := canvasUrl newProjectId (jsTrim inputValue)
      { isGenerating := true,
        alerts := [],
        inserts := [(newProjectId, projectTitle)],
        navigation := some url,
        trace := [.insertResolved newProjectId projectTitle none,
          .navigate url] }

/-! ## Helper lemmas -/

theorem jsSlice_eq_empty_iff (s : String) (n : Nat) (hn : n ≠ 0) :
    jsSlice s n = "" ↔ s = "" := by
  cases s with
  | mk d =>
    unfold jsSlice
    constructor
    · intro h
      have hd : d.take n = [] := congrArg String.data h
      rcases List.take_eq_nil_iff.mp hd with h0 | hnil
      · exact absurd h0 hn
      · simp [hnil]
    · intro h
      have hd : d = [] := congrArg String.data h
      simp [hd]

theorem jsSlice_of_length_le (s : String) (n : Nat) (h : s.length ≤ n) :
    jsSlice s n = s := by
  cases s with
  | mk d =>
    unfold jsSlice
    have hd : d.length ≤ n := h
    rw [List.take_of_length_le hd]

/-! ## Claim theorems -/

/-- C2: for every prompt whose trimmed form is non-empty, the derived
project title is the first 50 characters of the trimmed prompt; for
trimmed prompts of at most 50 characters it is the trimmed prompt
exactly; the title is never the empty string; and when the trimmed
prompt is empty the fallback literal `未命名项目` is substituted. -/
theorem title_from_trimmed_prompt (p : String) :
    (jsTrim p ≠ "" → deriveTitle p = jsSlice (jsTrim p) 50)
    ∧ (jsTrim p ≠ "" → (jsTrim p).length ≤ 50 → deriveTitle p = jsTrim p)
    ∧ deriveTitle p ≠ ""
    ∧ (jsTrim p = "" → deriveTitle p = "未命名项目") := by
  have hslice : jsTrim p ≠ "" → deriveTitle p = jsSlice (jsTrim p) 50 := by
    intro h
    have hs : jsSlice (jsTrim p) 50 ≠ "" :=
      fun hh => h ((jsSlice_eq_empty_iff _ 50 (by decide)).mp hh)
    unfold deriveTitle jsOrStr
    rw [if_neg hs]
  refine ⟨hslice, ?_, ?_, ?_⟩
  · intro h hlen
    rw [hslice h, jsSlice_of_length_le _ _ hlen]
  · unfold deriveTitle jsOrStr
    split
    · decide
    · assumption
  · intro h
    unfold deriveTitle
    rw [h]
    decide

/-- Witness for C2 at the spec's scenario prompt and at a
whitespace-only prompt. -/
theorem title_from_trimmed_prompt_checked :
    deriveTitle "  Design a logo  " = "Design a logo"
    ∧ deriveTitle "   " = "未命名项目" := by
  refine ⟨?_, ?_⟩
  · exact (title_from_trimmed_prompt "  Design a logo  ").2.1
      (by decide) (by decide)
  · exact (title_from_trimmed_prompt "   ").2.2.2 (by decide)

/-- C3: when the project insert succeeds, `handleGenerate` navigates to
the editor path carrying exactly the client-generated project id and the
full trimmed prompt URL-encoded (`canvasUrl`), and the in-flight flag is
left set. -/
theorem creation_success_navigates_full_prompt
    (input user pid : String) (res : QueryResult Project)
    (h1 : jsTrim input ≠ "") (h2 : res.error = none) :
    (handleGenerate input false (some user) true pid res).navigation
      = some (canvasUrl pid (jsTrim input))
    ∧ (handleGenerate input false (some user) true pid res).isGenerating = true
    ∧ (handleGenerate input false (some user) true pid res).inserts
      = [(pid, deriveTitle input)] := by
  simp [handleGenerate, h1, h2]

/-- Witness for C3 at the spec's scenario: prompt `"  Design a logo  "`,
insert success. -/
theorem creation_success_navigates_full_prompt_checked :
    (handleGenerate "  Design a logo  " false (some "u1") true "p1"
        ⟨some ⟨"p1", "Design a logo", none, "t0"⟩, none⟩).navigation
      = some "/lovart/canvas?id=p1&prompt=Design%20a%20logo"
    ∧ (handleGenerate "  Design a logo  " false (some "u1") true "p1"
        ⟨some ⟨"p1", "Design a logo", none, "t0"⟩, none⟩).isGenerating = true := by
  have h := creation_success_navigates_full_prompt "  Design a logo  " "u1" "p1"
    ⟨some ⟨"p1", "Design a logo", none, "t0"⟩, none⟩ (by decide) rfl
  refine ⟨?_, h.2.1⟩
  rw [h.1]
  decide

/-- C4: when the project insert fails with store error message `M`,
`handleGenerate` alerts `"创建项目失败: " ++ M`, resets the in-flight
flag to `false`, and performs no navigation. -/
theorem creation_failure_alerts_and_resets
    (input user pid : String) (res : QueryResult Project) (e : StoreError)
    (h1 : jsTrim input ≠ "") (h2 : res.error = some e) :
    (handleGenerate input false (some user) true pid res).alerts
      = ["创建项目失败: " ++ e.message]
    ∧ (handleGenerate input false (some user) true pid res).isGenerating = false
    ∧ (handleGenerate input false (some user) true pid res).navigation = none := by
  simp [handleGenerate, h1, h2]

/-- Witness for C4 at the spec's scenario: insert failure with message
`"network error"`. -/
theorem creation_failure_alerts_and_resets_checked :
    (handleGenerate "  Design a logo  " false (some "u1") true "p1"
        ⟨none, some ⟨none, "network error"⟩⟩).alerts
      = ["创建项目失败: network error"]
    ∧ (handleGenerate "  Design a logo  " false (some "u1") true "p1"
        ⟨none, some ⟨none, "network error"⟩⟩).isGenerating = false
    ∧ (handleGenerate "  Design a logo  " false (some "u1") true "p1"
        ⟨none, some ⟨none, "network error"⟩⟩).navigation = none := by
  have h := creation_failure_alerts_and_resets "  Design a logo  " "u1" "p1"
    ⟨none, some ⟨none, "network error"⟩⟩ ⟨none, "network error"⟩ (by decide) rfl
  refine ⟨?_, h.2.1, h.2.2⟩
  rw [h.1]
  decide

/-- C7: for an empty-after-trimming prompt, or when a creation is
already in flight, `handleGenerate` is a no-op: no insert, no
navigation, no alert, no event, and the in-flight flag is unchanged. -/
theorem creation_guard_noop (input : String) (isGen : Bool)
    (user : Option String) (hs : Bool) (pid : String)
    (res : QueryResult Project)
    (h : jsTrim input = "" ∨ isGen = true) :
    handleGenerate input isGen user hs pid res =
      { isGenerating := isGen, alerts := [], inserts := [],
        navigation := none, trace := [] } := by
  unfold handleGenerate
  rw [if_pos h]

/-- Witness for C7 at a whitespace-only prompt. -/
theorem creation_guard_noop_checked :
    handleGenerate "   " false (some "u1") true "p1" ⟨none, none⟩ =
      { isGenerating := false, alerts := [], inserts := [],
        navigation := none, trace := [] } :=
  creation_guard_noop "   " false (some "u1") true "p1" ⟨none, none⟩
    (Or.inl (by decide))

/-- C10: in every `handleGenerate` run, navigation is initiated only
after the project insert has resolved and only when it resolved without
error: any `navigate` event in the trace is strictly preceded by an
`insertResolved` event carrying no error, and the insert result itself
has no error. -/
theorem insert_precedes_navigation (input : String) (isGen : Bool)
    (user : Option String) (hs : Bool) (pid : String)
    (res : QueryResult Project) (j : Nat) (url : String)
    (h : (handleGenerate input isGen user hs pid res).trace.get? j
      = some (.navigate url)) :
    res.error = none
    ∧ ∃ i id t, i < j
      ∧ (handleGenerate input isGen user hs pid res).trace.get? i
        = some (.insertResolved id t none) := by
  by_cases hg : jsTrim input = "" ∨ isGen = true
  · unfold handleGenerate at h
    rw [if_pos hg] at h
    simp at h
  · by_cases hu : user.isNone
    · unfold handleGenerate at h
      rw [if_neg hg, if_pos hu] at h
      rcases j with _ | j <;> simp_all
    · by_cases hsb : hs = false
      · unfold handleGenerate at h
        rw [if_neg hg, if_neg hu, if_pos hsb] at h
        rcases j with _ | j <;> simp_all
      · cases hres : res.error with
        | some e =>
          unfold handleGenerate at h
          rw [if_neg hg, if_neg hu, if_neg hsb, hres] at h
          rcases j with _ | j
          · simp at h
          · rcases j with _ | j <;> simp_all
        | none =>
          refine ⟨rfl, 0, pid, deriveTitle input, ?_, ?_⟩
          · unfold handleGenerate at h
            rw [if_neg hg, if_neg hu, if_neg hsb, hres] at h
            rcases j with _ | j
            · simp at h
            · omega
          · unfold handleGenerate
            rw [if_neg hg, if_neg hu, if_neg hsb, hres]
            rfl

/-- Witness for C10: a successful run whose trace has the `navigate`
event at position 1, preceded by the error-free insert event. -/
theorem insert_precedes_navigation_checked :
    (⟨none, none⟩ : QueryResult Project).error = none
    ∧ ∃ i id t, i < 1
      ∧ (handleGenerate "hello" false (some "u1") true "p1"
          ⟨none, none⟩).trace.get? i = some (.insertResolved id t none) :=
  insert_precedes_navigation "hello" false (some "u1") true "p1"
    ⟨none, none⟩ 1 (canvasUrl "p1" "hello") (by decide)

/-- C5: the credit bootstrap issues exactly one insert, with the current
identity and balance 1000, precisely when the single-row read fails with
code `PGRST116`; when the insert returns the inserted row (balance
1000), that balance is adopted. On any other read error, and on read
success, no insert is issued. -/
theorem credit_bootstrap_insert_once (uid : String)
    (cr ir : QueryResult CreditRow) :
    (∀ e, cr.error = some e → e.code = some "PGRST116" →
      (processCredits uid cr ir).2 = [(uid, 1000)]
      ∧ (ir.data = some ⟨1000⟩ → (processCredits uid cr ir).1 = some 1000))
    ∧ (∀ e, cr.error = some e → e.code ≠ some "PGRST116" →
      (processCredits uid cr ir).2 = [])
    ∧ (cr.error = none → (processCredits uid cr ir).2 = []) := by
  refine ⟨?_, ?_, ?_⟩
  · intro e he hc
    refine ⟨by simp [processCredits, he, hc], ?_⟩
    intro hd
    simp [processCredits, he, hc, hd, jsOrNum]
  · intro e he hc
    simp [processCredits, he, hc]
  · intro he
    simp [processCredits, he]

/-- Witness for C5: a `PGRST116` read with a successful insert returning
the inserted row. -/
theorem credit_bootstrap_insert_once_checked :
    (processCredits "u1" ⟨none, some ⟨some "PGRST116", "no rows"⟩⟩
      ⟨some ⟨1000⟩, none⟩).2 = [("u1", 1000)]
    ∧ (processCredits "u1" ⟨none, some ⟨some "PGRST116", "no rows"⟩⟩
      ⟨some ⟨1000⟩, none⟩).1 = some 1000 := by
  have h := (credit_bootstrap_insert_once "u1"
    ⟨none, some ⟨some "PGRST116", "no rows"⟩⟩ ⟨some ⟨1000⟩, none⟩).1
    ⟨some "PGRST116", "no rows"⟩ rfl rfl
  exact ⟨h.1, h.2 rfl⟩

/-- C6 counterexample: when the bootstrap insert itself fails (no row
returned, store error present), a balance of 1000 is still adopted —
the credits display does not stay empty. -/
theorem credit_insert_failure_still_adopts :
    (processCredits "u1" ⟨none, some ⟨some "PGRST116", "no rows"⟩⟩
      ⟨none, some ⟨none, "insert failed"⟩⟩).1 = some 1000
    ∧ (processCredits "u1" ⟨none, some ⟨some "PGRST116", "no rows"⟩⟩
      ⟨none, some ⟨none, "insert failed"⟩⟩).1 ≠ none := by
  decide

/-- C6 amended: after a `PGRST116` read, the insert failure is silently
swallowed (no alert path exists), but a balance is always adopted: the
default 1000 whenever the insert returns no row (in particular on insert
failure), and the returned balance `c` when the insert returns a row
with non-zero `c`. -/
theorem credit_insert_failure_swallowed_default (uid : String)
    (cr ir : QueryResult CreditRow) (e : StoreError)
    (he : cr.error = some e) (hc : e.code = some "PGRST116") :
    ((processCredits uid cr ir).1).isSome = true
    ∧ (ir.data = none → (processCredits uid cr ir).1 = some 1000)
    ∧ (∀ c : Int, c ≠ 0 → ir.data = some ⟨c⟩ →
      (processCredits uid cr ir).1 = some c) := by
  refine ⟨by simp [processCredits, he, hc], ?_, ?_⟩
  · intro hd
    simp [processCredits, he, hc, hd, jsOrNum]
  · intro c hc0 hd
    simp [processCredits, he, hc, hd, jsOrNum, hc0]

/-- Witness for C6's amended statement at a failed insert. -/
theorem credit_insert_failure_swallowed_default_checked :
    ((processCredits "u1" ⟨none, some ⟨some "PGRST116", "no rows"⟩⟩
      ⟨none, some ⟨none, "insert failed"⟩⟩).1).isSome = true
    ∧ (processCredits "u1" ⟨none, some ⟨some "PGRST116", "no rows"⟩⟩
      ⟨none, some ⟨none, "insert failed"⟩⟩).1 = some 1000 := by
  have h := credit_insert_failure_swallowed_default "u1"
    ⟨none, some ⟨some "PGRST116", "no rows"⟩⟩
    ⟨none, some ⟨none, "insert failed"⟩⟩ ⟨some "PGRST116", "no rows"⟩ rfl rfl
  exact ⟨h.1, h.2.1 rfl⟩

/-- C8: when a credit record already exists (read succeeds with balance
`B`), no insert is issued and the adopted balance equals `B`. -/
theorem credit_existing_no_insert (uid : String)
    (cr ir : QueryResult CreditRow) (B : Int)
    (herr : cr.error = none) (hdata : cr.data = some ⟨B⟩) :
    (processCredits uid cr ir).1 = some B
    ∧ (processCredits uid cr ir).2 = [] := by
  rcases eq_or_ne B 0 with hb | hb <;>
    simp [processCredits, herr, hdata, jsOrNum, hb]

/-- Witness for C8 at an existing balance of 500. -/
theorem credit_existing_no_insert_checked :
    (processCredits "u1" ⟨some ⟨500⟩, none⟩ ⟨none, none⟩).1 = some 500
    ∧ (processCredits "u1" ⟨some ⟨500⟩, none⟩ ⟨none, none⟩).2 = [] :=
  credit_existing_no_insert "u1" ⟨some ⟨500⟩, none⟩ ⟨none, none⟩ 500 rfl rfl

/-- C1 counterexample: with an identical, successful credits read
(balance 500) in both runs, the adopted credit balance differs depending
on whether the concurrently issued project-listing read fails (no
balance adopted: the thrown listing error skips credit processing) or
succeeds (balance 500 adopted) — the flows are not independent. -/
theorem flows_not_independent :
    (loadData (some "u1") true
      ⟨⟨none, some ⟨none, "boom"⟩⟩, ⟨some ⟨500⟩, none⟩, ⟨none, none⟩⟩).credits
      = none
    ∧ (loadData (some "u1") true
      ⟨⟨some [], none⟩, ⟨some ⟨500⟩, none⟩, ⟨none, none⟩⟩).credits
      = some 500
    ∧ (loadData (some "u1") true
      ⟨⟨none, some ⟨none, "boom"⟩⟩, ⟨some ⟨500⟩, none⟩, ⟨none, none⟩⟩).credits
      ≠ (loadData (some "u1") true
      ⟨⟨some [], none⟩, ⟨some ⟨500⟩, none⟩, ⟨none, none⟩⟩).credits := by
  decide

/-- C1 amended: independence holds one way and only on the listing
success path. The project list and loading flag never depend on the
credits-side results; when the project-listing read succeeds, the
adopted credit balance is independent of the listing result; but when
the project-listing read fails, no credit balance is adopted regardless
of the credits read's outcome. -/
theorem flows_coupled_one_way (u : Option String) (hs : Bool)
    (e1 e2 : LoadEnv) :
    (e1.projectsRes = e2.projectsRes →
      (loadData u hs e1).projects = (loadData u hs e2).projects
      ∧ (loadData u hs e1).isLoading = (loadData u hs e2).isLoading)
    ∧ (e1.creditsRes = e2.creditsRes → e1.insertRes = e2.insertRes →
      e1.projectsRes.error = none → e2.projectsRes.error = none →
      (loadData u hs e1).credits = (loadData u hs e2).credits)
    ∧ (∀ er, e1.projectsRes.error = some er →
      (loadData u hs e1).credits = none) := by
  refine ⟨?_, ?_, ?_⟩
  · intro hp
    cases u with
    | none => simp [loadData]
    | some uid =>
      cases hs with
      | false => simp [loadData]
      | true =>
        simp only [loadData]
        rw [hp]
        cases herr : e2.projectsRes.error <;> simp
  · intro hcr hir hp1 hp2
    cases u with
    | none => simp [loadData]
    | some uid =>
      cases hs with
      | false => simp [loadData]
      | true =>
        simp only [loadData, hp1, hp2]
        rw [hcr, hir]
  · intro er her
    cases u with
    | none => simp [loadData]
    | some uid =>
      cases hs with
      | false => simp [loadData]
      | true => simp [loadData, her]

/-- Witness for C1's amended statement: on listing success the adopted
balance agrees across different listing results, and on listing failure
no balance is adopted. -/
theorem flows_coupled_one_way_checked :
    (loadData (some "u1") true
      ⟨⟨some [⟨"a", "t", none, "2024-05"⟩], none⟩, ⟨some ⟨500⟩, none⟩,
        ⟨none, none⟩⟩).credits
      = (loadData (some "u1") true
      ⟨⟨some [], none⟩, ⟨some ⟨500⟩, none⟩, ⟨none, none⟩⟩).credits
    ∧ (loadData (some "u1") true
      ⟨⟨none, some ⟨none, "boom"⟩⟩, ⟨some ⟨500⟩, none⟩,
        ⟨none, none⟩⟩).credits = none := by
  constructor
  · exact (flows_coupled_one_way (some "u1") true
      ⟨⟨some [⟨"a", "t", none, "2024-05"⟩], none⟩, ⟨some ⟨500⟩, none⟩,
        ⟨none, none⟩⟩
      ⟨⟨some [], none⟩, ⟨some ⟨500⟩, none⟩, ⟨none, none⟩⟩).2.1 rfl rfl rfl rfl
  · exact (flows_coupled_one_way (some "u1") true
      ⟨⟨none, some ⟨none, "boom"⟩⟩, ⟨some ⟨500⟩, none⟩, ⟨none, none⟩⟩
      ⟨⟨some [], none⟩, ⟨some ⟨500⟩, none⟩, ⟨none, none⟩⟩).2.2
      ⟨none, "boom"⟩ rfl

/-- C9: whenever the store answers the descending-ordered projects
request with an `updated_at`-descending list (the request
`projectsListRequest` is built with `ascending = false`), the stored
project list is `updated_at`-descending, and the dashboard preview never
renders more than 3 entries. -/
theorem listing_sorted_and_preview_bounded (u : Option String) (hs : Bool)
    (env : LoadEnv)
    (hstore : ∀ rows, env.projectsRes.data = some rows →
      sortedDescB rows = true) :
    sortedDescB (loadData u hs env).projects = true
    ∧ (renderedPreview (loadData u hs env).projects).length ≤ 3
    ∧ projectsListRequest.ascending = false := by
  have hp : sortedDescB (loadData u hs env).projects = true := by
    cases u with
    | none => simp [loadData, sortedDescB]
    | some uid =>
      cases hs with
      | false => simp [loadData, sortedDescB]
      | true =>
        cases herr : env.projectsRes.error with
        | some e => simp [loadData, herr, sortedDescB]
        | none =>
          cases hdata : env.projectsRes.data with
          | none => simp [loadData, herr, hdata, sortedDescB]
          | some rows =>
            simp only [loadData, herr, hdata, Option.getD_some]
            exact hstore rows hdata
  refine ⟨hp, ?_, rfl⟩
  unfold renderedPreview
  exact List.length_take_le 3 _

/-- Witness for C9: a store response of four descending-ordered projects
yields a sorted stored list and a preview of at most 3 entries. -/
theorem listing_sorted_and_preview_bounded_checked :
    sortedDescB (loadData (some "u1") true
      ⟨⟨some [⟨"a", "t", none, "2024-05"⟩, ⟨"b", "t", none, "2024-04"⟩,
        ⟨"c", "t", none, "2024-03"⟩, ⟨"d", "t", none, "2024-02"⟩], none⟩,
        ⟨some ⟨500⟩, none⟩, ⟨none, none⟩⟩).projects = true
    ∧ (renderedPreview (loadData (some "u1") true
      ⟨⟨some [⟨"a", "t", none, "2024-05"⟩, ⟨"b", "t", none, "2024-04"⟩,
        ⟨"c", "t", none, "2024-03"⟩, ⟨"d", "t", none, "2024-02"⟩], none⟩,
        ⟨some ⟨500⟩, none⟩, ⟨none, none⟩⟩).projects).length ≤ 3
    ∧ projectsListRequest.ascending = false := by
  refine listing_sorted_and_preview_bounded (some "u1") true _ ?_
  intro rows h
  injection h with h'
  subst h'
  decide

end OpenLovart
